import Mathlib

/-
Verification of the per-frame simulation core of Console Invaders
(src/coninv.cpp) against its natural-language specification.

Modelling conventions:
* C++ `float` quantities (positions, elapsed time, probabilities) are
  modelled as exact rationals; `roundf` is modelled as round-half-away-
  from-zero on rationals.
* The screen buffer (`wchar_t *screen`, 120 x 30 cells) is modelled as a
  total function from integer offsets to characters, together with the
  bound `nScreenWidth * nScreenHeight` used to state in-bounds facts.
  A write through an out-of-range offset is undefined behaviour in the
  source; in this model it simply updates the function at that offset,
  and in-bounds claims are settled by reasoning about the offsets
  themselves.
* A write to `alienState` through an out-of-range index is likewise
  undefined behaviour in the source; the model leaves the array
  unchanged in that case (`setAlienState`), and out-of-range indices are
  exhibited explicitly where they occur.
* Console, timing and input plumbing are abstracted into a per-frame
  input record (elapsed time, key samples, the per-cell random draws of
  the alien firing decision, and the formatted score line).
-/

set_option maxRecDepth 100000

namespace ConInv

/-! ## Rational rounding, mirroring `roundf` -/

/-- Floor of a rational number, computed from its normalised fraction. -/
def qfloor (q : ℚ) : Int := q.num.fdiv (q.den : Int)

/-- `roundf`: round to nearest, halves away from zero. -/
def roundf (q : ℚ) : Int := if 0 ≤ q then qfloor (q + 1/2) else - qfloor (-q + 1/2)

/-! ## Screen buffer -/

/-- The screen buffer, `wchar_t *screen` in the source, as a total map from
offsets to characters.  Valid offsets are `0 ≤ off < nScreenWidth * nScreenHeight`. -/
def Screen : Type := Int → Char

/-- A single cell write, `screen[off] = c`. -/
def scrWrite (s : Screen) (off : Int) (c : Char) : Screen :=
  fun o => if o = off then c else s o

/-! ## Game constants (src/coninv.cpp lines 35-65, 127-141) -/

def nScreenWidth : Int := 120
def nScreenHeight : Int := 30
def nAlienBlockWidth : Int := 10
def nAlienBlockHeight : Int := 4
def nAlienGlyphWidth : Int := 3
def nPlayerY : Int := nScreenHeight - 1

/-- `alienGlyphs`: each of the 4 rows has a 6-character string, two 3-wide
animation frames. -/
def alienGlyphs : List (List Char) :=
  [['<', 'o', '>', '>', 'o', '<'],
   ['}', 'O', '{', '-', 'O', '-'],
   ['[', 'T', ']', ']', '+', '['],
   ['(', '+', ')', '-', 'x', '-']]

/-- `shieldGlyphs = L" -=#"`, indexed by a cell's remaining strength. -/
def shieldGlyphs : List Char := [' ', '-', '=', '#']

/-- `playerGlyph = L"<I>"`. -/
def playerGlyph : List Char := ['<', 'I', '>']

def fPlayerVx : ℚ := 12
def fPlayerBulletSpeed : ℚ := -20
def fAlienBulletSpeed : ℚ := 20

/-! ## Shield (src/coninv.cpp lines 81-109) -/

/-- Destructible barrier: an 8 x 3 grid of integer strengths at a fixed
position.  `m_strength` is stored row-major as in the source. -/
structure Shield where
  m_strength : List Int
  nX : Int
  nY : Int
deriving DecidableEq

namespace Shield

def Length : Int := 8
def Height : Int := 3
def MaxStrength : Int := 3

/-- The constructor `Shield(x, y)`: all cells at full strength. -/
def init (x y : Int) : Shield :=
  { m_strength := List.replicate 24 MaxStrength, nX := x, nY := y }

/-- Whether `(colX, rowY)` lies inside this shield's footprint; the guard of
`Shield::hit`. -/
def inFootprint (s : Shield) (colX rowY : Int) : Prop :=
  s.nX ≤ colX ∧ colX < s.nX + Length ∧ s.nY ≤ rowY ∧ rowY < s.nY + Height

instance (s : Shield) (c r : Int) : Decidable (s.inFootprint c r) := by
  unfold inFootprint; infer_instance

/-- The row-major strength-cell offset used by `Shield::hit`. -/
def cellOff (s : Shield) (colX rowY : Int) : Int :=
  (rowY - s.nY) * Length + (colX - s.nX)

/-- The strength at the footprint cell of `(colX, rowY)` (0 when read out of
range, which cannot happen inside the footprint). -/
def cellVal (s : Shield) (colX rowY : Int) : Int :=
  s.m_strength.getD (s.cellOff colX rowY).toNat 0

/-- `Shield::hit(colX, rowY)`: returns whether the projectile was absorbed,
together with the updated shield. -/
def hit (s : Shield) (colX rowY : Int) : Bool × Shield :=
  if s.inFootprint colX rowY then
    if s.cellVal colX rowY > 0 then
      (true, { s with m_strength :=
        s.m_strength.set (s.cellOff colX rowY).toNat (s.cellVal colX rowY - 1) })
    else (false, s)
  else (false, s)

/-- Iterated hits at a fixed cell (used to state the absorb-exactly-
`MaxStrength`-hits property). -/
def hitIter (s : Shield) (colX rowY : Int) : Nat → Shield
  | 0 => s
  | n + 1 => ((s.hitIter colX rowY n).hit colX rowY).2

end Shield

/-- The three barriers of a round: `shields.push_back(Shield((i+1)*30,
nScreenHeight-6))` for `i = 0, 1, 2`. -/
def initShields : List Shield :=
  [Shield.init 30 24, Shield.init 60 24, Shield.init 90 24]

/-- Reading one strength cell out of a list of shields (for stating
round-level monotonicity).  Out-of-range reads default to an empty shield. -/
def shieldCells (shs : List Shield) (si k : Nat) : Int :=
  ((shs.getD si { m_strength := [], nX := 0, nY := 0 }).m_strength).getD k 0

/-! ## Bullets -/

/-- A projectile record (`struct Bullet`). -/
structure Bullet where
  visible : Bool
  x : ℚ
  y : ℚ
  glyph : Char
deriving DecidableEq

/-- The player's (initially invisible) bullet, `Bullet()` with glyph `'|'`. -/
def initPlayerBullet : Bullet := { visible := false, x := 0, y := 0, glyph := '|' }

/-- The enemy bullet pool: 5 invisible bullets with glyph `'*'`. -/
def initAlienBullets : List Bullet :=
  List.replicate 5 { visible := false, x := 0, y := 0, glyph := '*' }

/-! ## The loop over all three shields for one projectile position
(src/coninv.cpp lines 330-332 and 398-399): every shield's `hit` is invoked;
the projectile is removed if any absorbed it. -/

def hitShields : List Shield → Int → Int → Bool × List Shield
  | [], _, _ => (false, [])
  | sh :: rest, c, r =>
    let h1 := sh.hit c r
    let hr := hitShields rest c r
    (h1.1 || hr.1, h1.2 :: hr.2)

/-! ## Alien helpers -/

/-- `GetAlienScreenOffset(i, j)` (src/coninv.cpp lines 164-167): the screen
offset of the first glyph cell of alien `(i, j)`, for the current block
origin. -/
def GetAlienScreenOffset (nAlienBlockX nAlienBlockY : Int) (i j : Nat) : Int :=
  (2 * (i : Int) + nAlienBlockY) * nScreenWidth + nAlienBlockX + (j : Int) * 6

/-- Guarded write into the 40-entry `alienState` array.  In-range writes
update the cell; the source performs an undefined out-of-bounds memory write
for any other index (see the C6 analysis), modelled here as a no-op. -/
def setAlienState (l : List Nat) (idx : Int) (v : Nat) : List Nat :=
  if 0 ≤ idx then l.set idx.toNat v else l

/-- `AlienFire(alienBullets, i, j)` (src/coninv.cpp lines 144-154): claim the
first free pool slot, positioning it from the block origin; report success. -/
def AlienFire (nAlienBlockX nAlienBlockY : Int) (i j : Nat) :
    List Bullet → Bool × List Bullet
  | [] => (false, [])
  | b :: rest =>
    if b.visible then
      let r := AlienFire nAlienBlockX nAlienBlockY i j rest
      (r.1, b :: r.2)
    else
      (true, { b with x := (nAlienBlockX : ℚ) + 6 * (j : ℚ) + 1,
                      y := (nAlienBlockY : ℚ) + (i : ℚ) + 1,
                      visible := true } :: rest)

/-! ## Drawing (src/coninv.cpp lines 157-260, 431-439) -/

/-- `ClearBuffer`: every cell blank. -/
def ClearBuffer : Screen := fun _ => ' '

/-- Write a run of characters starting at `off` (models the formatted score
line `swprintf_s(&screen[2], ...)` followed by `screen[2+nc] = ' '`). -/
def drawText (scr : Screen) (off : Int) : List Char → Screen
  | [] => scrWrite scr off ' '
  | c :: cs => drawText (scrWrite scr off c) (off + 1) cs

/-- Draw one alien cell: 3 glyph characters when alive, `'x'` three times
when exploding, nothing when dead. -/
def drawAlienCell (nAlienBlockX nAlienBlockY : Int) (nFrameOffset : Nat)
    (state : Nat) (i j : Nat) (scr : Screen) : Screen :=
  let off := GetAlienScreenOffset nAlienBlockX nAlienBlockY i j
  match state with
  | 0 =>
    let row := (alienGlyphs.getD (i % 4) [])
    scrWrite (scrWrite (scrWrite scr off (row.getD nFrameOffset ' '))
      (off + 1) (row.getD (nFrameOffset + 1) ' '))
      (off + 2) (row.getD (nFrameOffset + 2) ' ')
  | 1 => scrWrite (scrWrite (scrWrite scr off 'x') (off + 1) 'x') (off + 2) 'x'
  | _ => scr

/-- `DrawAliens(nFrameOffset)`: row-major render of the whole block. -/
def DrawAliens (alienState : List Nat) (nAlienBlockX nAlienBlockY : Int)
    (nFrameOffset : Nat) (scr : Screen) : Screen :=
  (List.range 4).foldl (fun s1 i =>
    (List.range 10).foldl (fun s2 j =>
      drawAlienCell nAlienBlockX nAlienBlockY nFrameOffset
        (alienState.getD (i * 10 + j) 0) i j s2) s1) scr

/-- `DrawShields`. -/
def DrawShields (shields : List Shield) (scr : Screen) : Screen :=
  shields.foldl (fun s1 shld =>
    (List.range 3).foldl (fun s2 (i : Nat) =>
      (List.range 8).foldl (fun s3 (j : Nat) =>
        scrWrite s3 ((shld.nY + (i : Int)) * nScreenWidth + shld.nX + (j : Int))
          (shieldGlyphs.getD (shld.m_strength.getD (i * 8 + j) 0).toNat ' ')) s2) s1) scr

/-- `DrawPlayer(bPlayerHit)`: three glyph cells on the bottom row, each write
guarded by `offset < nScreenHeight*nScreenWidth`. -/
def DrawPlayer (bPlayerHit : Bool) (fPlayerX : ℚ) (scr : Screen) : Screen :=
  let nPlayerX := roundf fPlayerX
  (List.range 3).foldl (fun s (k : Nat) =>
    let off := nPlayerY * nScreenWidth + nPlayerX + (k : Int)
    if off < nScreenHeight * nScreenWidth then
      scrWrite s off (if bPlayerHit then 'X' else playerGlyph.getD k ' ')
    else s) scr

/-- `DrawBullets`: the player bullet (if visible) and every visible enemy
bullet at their rounded positions. -/
def DrawBullets (alienBullets : List Bullet) (pBullet : Bullet) (scr : Screen) : Screen :=
  let s1 := if pBullet.visible then
    scrWrite scr (roundf pBullet.y * nScreenWidth + roundf pBullet.x) pBullet.glyph
  else scr
  alienBullets.foldl (fun s b =>
    if b.visible then scrWrite s (roundf b.y * nScreenWidth + roundf b.x) b.glyph
    else s) s1

/-! ## Collision resolution against the alien grid
(src/coninv.cpp lines 197-221) -/

/-- The characters the player-bullet hit-test ignores, `L"*#=- "`. -/
def specialChars : List Char := ['*', '#', '=', '-', ' ']

/-- The row-major scan of `HitAlien`: first alien cell whose 3-wide screen
footprint contains `bulletIndex`. -/
def findAlienAt (nAlienBlockX nAlienBlockY bulletIndex : Int) : Option (Nat × Nat) :=
  ((List.range 4).flatMap (fun i => (List.range 10).map (fun j => (i, j)))).find?
    (fun p =>
      let off := GetAlienScreenOffset nAlienBlockX nAlienBlockY p.1 p.2
      decide (off ≤ bulletIndex ∧ bulletIndex < off + 3))

/-- `HitAlien(bullet, &iAlien, &jAlien)`: reads the cell one row above the
bullet's rounded position; a hit is reported when the bullet is below the top
of the screen and the glyph there is not in `specialChars`.  The out-
parameters keep their previous values when the scan finds no alien cell. -/
def HitAlien (scr : Screen) (nAlienBlockX nAlienBlockY : Int) (bullet : Bullet)
    (iAlien jAlien : Int) : Bool × Int × Int :=
  let nBulletY := roundf bullet.y
  let nBulletX := roundf bullet.x
  let bulletIndex := (nBulletY - 1) * nScreenWidth + nBulletX
  let bHitAlien := decide (0 < bullet.y) &&
    specialChars.all (fun c => scr bulletIndex ≠ c)
  if bHitAlien then
    match findAlienAt nAlienBlockX nAlienBlockY bulletIndex with
    | some (i, j) => (true, (i : Int), (j : Int))
    | none => (true, iAlien, jAlien)
  else (false, iAlien, jAlien)

/-! ## The per-round game state and per-frame inputs -/

/-- All mutable state of one round: the globals of src/coninv.cpp plus the
locals of `main` that persist across frames.  `screen` holds the buffer
rendered at the end of the previous frame, which the collision code reads
back.  The latches `bKeyHold[LEFT_ARROW]`/`bKeyHold[RIGHT_ARROW]` are written
but never read by the source and are not modelled; `bKeyHoldSpace` is
`bKeyHold[SPACEBAR]`. -/
structure GameState where
  alienState : List Nat
  nAlienStep : Int
  nAlienBlockX : Int
  nAlienBlockY : Int
  fPlayerX : ℚ
  fExplodingElapsed : ℚ
  nAlienExploding : Int
  shields : List Shield
  bullet : Bullet
  alienBullets : List Bullet
  bPlayerHit : Bool
  nScore : Int
  nLives : Int
  bGameOver : Bool
  bQuit : Bool
  fAnimDelay : ℚ
  fAnimElapsed : ℚ
  nFrameOffset : Nat
  iAlien : Int
  jAlien : Int
  bKeyHoldSpace : Bool
  screen : Screen

/-- Everything the frame loop samples from outside: the measured elapsed
time, the five key states (pause is unused by the core), one uniform random
draw per enemy cell for the firing decision, and the formatted score line
text the frame writes at offset 2. -/
structure FrameInput where
  dt : ℚ
  keyLeft : Bool
  keyRight : Bool
  keySpace : Bool
  keyEsc : Bool
  rand : Nat → Nat → ℚ
  scoreTxt : List Char

/-- `InitGame()` plus the per-round initialisation at the top of the outer
loop of `main` (src/coninv.cpp lines 127-141 and 272-291). -/
def initRound : GameState :=
  { alienState := List.replicate 40 0
    nAlienStep := 1
    nAlienBlockX := 2
    nAlienBlockY := 2
    fPlayerX := (120 - 3) / 2
    fExplodingElapsed := 0
    nAlienExploding := -1
    shields := initShields
    bullet := initPlayerBullet
    alienBullets := initAlienBullets
    bPlayerHit := false
    nScore := 0
    nLives := 3
    bGameOver := false
    bQuit := false
    fAnimDelay := 35/100
    fAnimElapsed := 0
    nFrameOffset := 0
    iAlien := -1
    jAlien := -1
    bKeyHoldSpace := true
    screen := ClearBuffer }

/-! ## The frame step, one sub-definition per block of the loop body -/

/-- Player lateral movement (src/coninv.cpp lines 309-322), suppressed while
the player is exploding and clamped to the screen. -/
def movePlayer (inp : FrameInput) (g : GameState) : GameState :=
  let g1 :=
    if inp.keyLeft ∧ ¬g.bPlayerHit then
      let dx := fPlayerVx * inp.dt
      { g with fPlayerX := if g.fPlayerX > dx then g.fPlayerX - dx else 0 }
    else g
  if inp.keyRight ∧ ¬g1.bPlayerHit then
    let dx := fPlayerVx * inp.dt
    let maxX : ℚ := 120 - 3
    { g1 with fPlayerX := if g1.fPlayerX + dx ≤ maxX then g1.fPlayerX + dx else maxX }
  else g1

/-- The player bullet after this frame's movement. -/
def movedPlayerBullet (inp : FrameInput) (g : GameState) : Bullet :=
  { g.bullet with y := g.bullet.y + fPlayerBulletSpeed * inp.dt }

/-- The firing block (src/coninv.cpp lines 325-351).  When the bullet is in
flight it is moved, then every shield's `hit` is applied, then — whether or
not a shield absorbed it — the top-of-screen check and `HitAlien` run; a
reported alien hit marks that cell exploding, restarts the shared explosion
timer and awards 100 points.  When no bullet is in flight, a new one spawns
if the spacebar is sampled held with `bKeyHold[SPACEBAR]` armed and the
player not exploding; otherwise the latch re-arms. -/
def updatePlayerBullet (inp : FrameInput) (g : GameState) : GameState :=
  if g.bullet.visible then
    let b1 := movedPlayerBullet inp g
    let nBulletX := roundf b1.x
    let nBulletY := roundf b1.y
    let shieldRes := hitShields g.shields nBulletX nBulletY
    let b2 := if shieldRes.1 then { b1 with visible := false } else b1
    if nBulletY ≤ 0 then
      { g with bullet := { b2 with visible := false }, shields := shieldRes.2 }
    else
      let hitRes := HitAlien g.screen g.nAlienBlockX g.nAlienBlockY b2 g.iAlien g.jAlien
      if hitRes.1 then
        { g with bullet := { b2 with visible := false }
                 shields := shieldRes.2
                 alienState := setAlienState g.alienState (hitRes.2.1 * 10 + hitRes.2.2) 1
                 fExplodingElapsed := 0
                 nAlienExploding := hitRes.2.1 * 10 + hitRes.2.2
                 nScore := g.nScore + 100
                 iAlien := hitRes.2.1
                 jAlien := hitRes.2.2 }
      else
        { g with bullet := b2, shields := shieldRes.2
                 iAlien := hitRes.2.1, jAlien := hitRes.2.2 }
  else if inp.keySpace ∧ g.bKeyHoldSpace ∧ ¬g.bPlayerHit then
    { g with bullet := { g.bullet with y := (30 : ℚ) - 2, x := g.fPlayerX + 1, visible := true }
             bKeyHoldSpace := false }
  else
    { g with bKeyHoldSpace := true }

/-- Formation movement (src/coninv.cpp lines 353-377): bottom check first,
then — on an animation tick — edge bounces (direction flip, one row down,
one column inward, conditional animation-delay decrement), else a lateral
step. -/
def moveAliens (bUpdateAnim : Bool) (g : GameState) : GameState :=
  if g.nAlienBlockY + nAlienBlockHeight ≥ nScreenHeight then
    { g with bGameOver := true, nAlienBlockY := 2 }
  else if bUpdateAnim ∧ g.nAlienBlockX + 2 * nAlienBlockWidth * nAlienGlyphWidth ≥ nScreenWidth then
    { g with nAlienStep := if g.nAlienStep = 1 then -1 else 1
             nAlienBlockY := g.nAlienBlockY + 1
             nAlienBlockX := g.nAlienBlockX - 1
             fAnimDelay := g.fAnimDelay - (if g.fAnimDelay > 10 then 5/100 else 0) }
  else if bUpdateAnim ∧ g.nAlienBlockX ≤ 0 then
    { g with nAlienStep := if g.nAlienStep = 1 then -1 else 1
             nAlienBlockY := g.nAlienBlockY + 1
             nAlienBlockX := g.nAlienBlockX + 1
             fAnimDelay := g.fAnimDelay - (if g.fAnimDelay > 10 then 5/100 else 0) }
  else
    { g with nAlienBlockX := g.nAlienBlockX + (if bUpdateAnim then g.nAlienStep else 0) }

/-- The firing decision for all enemy cells (src/coninv.cpp lines 378-389):
each alive cell draws a uniform random value and fires when it is below the
alignment-dependent probability. -/
def alienFiringStep (inp : FrameInput) (g : GameState) : GameState :=
  (List.range 4).foldl (fun g1 (i : Nat) =>
    (List.range 10).foldl (fun g2 (j : Nat) =>
      if g2.alienState.getD (i * 10 + j) 0 = 0 then
        let fProbFire : ℚ :=
          if g2.nAlienBlockX + 6 * (j : Int) = roundf g2.fPlayerX then 2/10 else 2/100
        if inp.rand i j < fProbFire then
          { g2 with alienBullets :=
              (AlienFire g2.nAlienBlockX g2.nAlienBlockY i j g2.alienBullets).2 }
        else g2
      else g2) g1) g

/-- The state threaded through the enemy-bullet loop. -/
structure ABState where
  shields : List Shield
  bPlayerHit : Bool
  nLives : Int
  bGameOver : Bool
  fPlayerX : ℚ
  dt : ℚ
deriving DecidableEq

/-- One iteration of the enemy-bullet loop (src/coninv.cpp lines 390-409):
move the bullet, apply every shield's `hit`, then — regardless of an
absorption — test the player-hit condition at the bottom row, which
decrements a life, enters the player-exploding state and assigns
`bGameOver = (nLives == 0)`; otherwise cull the bullet below the screen. -/
def stepAlienBullet (st : ABState) (b : Bullet) : ABState × Bullet :=
  if b.visible then
    let y1 := b.y + fAlienBulletSpeed * st.dt
    let nY := roundf y1
    let nX := roundf b.x
    let nPlayerX := roundf st.fPlayerX
    let shieldRes := hitShields st.shields nX nY
    let b1 : Bullet := { b with y := y1, visible := if shieldRes.1 then false else b.visible }
    if ¬st.bPlayerHit ∧ nY = nScreenHeight ∧ nPlayerX ≤ nX ∧ nX < nPlayerX + 3 then
      let lives1 := st.nLives - (if st.nLives > 0 then 1 else 0)
      ({ st with shields := shieldRes.2, bPlayerHit := true, nLives := lives1,
                 bGameOver := decide (lives1 = 0) },
       { b1 with visible := false })
    else if nY ≥ nScreenHeight then
      ({ st with shields := shieldRes.2 }, { b1 with visible := false })
    else
      ({ st with shields := shieldRes.2 }, b1)
  else (st, b)

/-- The enemy-bullet loop over the whole pool, threading the shared state. -/
def stepAlienBullets (st : ABState) : List Bullet → ABState × List Bullet
  | [] => (st, [])
  | b :: bs =>
    let r1 := stepAlienBullet st b
    let r2 := stepAlienBullets r1.1 bs
    (r2.1, r1.2 :: r2.2)

/-- Packing and unpacking of `stepAlienBullets` into the game state. -/
def alienBulletsStep (inp : FrameInput) (g : GameState) : GameState :=
  let r := stepAlienBullets
    { shields := g.shields, bPlayerHit := g.bPlayerHit, nLives := g.nLives,
      bGameOver := g.bGameOver, fPlayerX := g.fPlayerX, dt := inp.dt }
    g.alienBullets
  { g with shields := r.1.shields, bPlayerHit := r.1.bPlayerHit,
           nLives := r.1.nLives, bGameOver := r.1.bGameOver,
           alienBullets := r.2 }

/-- The exploding-alien animation (src/coninv.cpp lines 410-421): while the
shared timer is under 0.6 it accumulates elapsed time; at the first frame at
which it has reached 0.6 the tracked cell becomes Dead and the tracker
clears. -/
def animateExplodingAlien (dt : ℚ) (g : GameState) : GameState :=
  if g.nAlienExploding ≠ -1 then
    if g.fExplodingElapsed < 6/10 then
      { g with fExplodingElapsed := g.fExplodingElapsed + dt }
    else
      { g with alienState := setAlienState g.alienState g.nAlienExploding 2
               nAlienExploding := -1
               fExplodingElapsed := 0 }
  else g

/-- The exploding-player animation (src/coninv.cpp lines 422-429), sharing
`fExplodingElapsed` with the alien explosion. -/
def animateExplodingPlayer (dt : ℚ) (g : GameState) : GameState :=
  if g.bPlayerHit then
    if g.fExplodingElapsed < 1 then
      { g with fExplodingElapsed := g.fExplodingElapsed + dt }
    else
      { g with fExplodingElapsed := 0, bPlayerHit := false }
  else g

/-- The render block (src/coninv.cpp lines 431-444): clear, score line,
shields, aliens, player, bullets; on an animation tick the glyph frame
toggles and the animation accumulator resets. -/
def renderFrame (bUpdateAnim : Bool) (inp : FrameInput) (g : GameState) : GameState :=
  let s1 := drawText ClearBuffer 2 inp.scoreTxt
  let s2 := DrawShields g.shields s1
  let s3 := DrawAliens g.alienState g.nAlienBlockX g.nAlienBlockY g.nFrameOffset s2
  let s4 := DrawPlayer g.bPlayerHit g.fPlayerX s3
  let s5 := DrawBullets g.alienBullets g.bullet s4
  let g1 := { g with screen := s5 }
  if bUpdateAnim then
    { g1 with nFrameOffset := if g1.nFrameOffset = 3 then 0 else 3, fAnimElapsed := 0 }
  else g1

/-- The quit check (src/coninv.cpp lines 306-307): the escape key flags both
game-over and quit; the rest of the frame still runs. -/
def escCheck (keyEsc : Bool) (g : GameState) : GameState :=
  if keyEsc then { g with bGameOver := true, bQuit := true } else g

/-- One full pass of the inner loop of `main` (src/coninv.cpp lines 293-445):
timing accumulation, input application, the player bullet, formation
movement, enemy firing, enemy bullets, the two explosion animations, and the
re-render. -/
def frameStep (inp : FrameInput) (g0 : GameState) : GameState :=
  let g1 := { g0 with fAnimElapsed := g0.fAnimElapsed + inp.dt }
  let bUpdateAnim : Bool := decide (g1.fAnimElapsed ≥ g1.fAnimDelay)
  let g2 := escCheck inp.keyEsc g1
  let g3 := movePlayer inp g2
  let g4 := updatePlayerBullet inp g3
  let g5 := moveAliens bUpdateAnim g4
  let g6 := alienFiringStep inp g5
  let g7 := alienBulletsStep inp g6
  let g8 := animateExplodingAlien inp.dt g7
  let g9 := animateExplodingPlayer inp.dt g8
  renderFrame bUpdateAnim inp g9

/-! ## Derived notions used in the statements -/

/-- Number of enemy cells currently in the Exploding state. -/
def explodingCount (l : List Nat) : Nat := (l.filter (fun s => s = 1)).length

/-- Cell-wise comparison of two shield lists. -/
def shieldsLE (a b : List Shield) : Prop :=
  ∀ si k : Nat, shieldCells a si k ≤ shieldCells b si k

/-- The screen as rendered from a given state (the buffer the next frame's
collision code reads back). -/
def renderScreenOf (g : GameState) (txt : List Char) : Screen :=
  (renderFrame false
    { dt := 0, keyLeft := false, keyRight := false, keySpace := false,
      keyEsc := false, rand := fun _ _ => 1, scoreTxt := txt } g).screen

/-- An alien-state array with the given cells Alive and Exploding and every
other cell Dead. -/
def deadExcept (live expl : List (Nat × Nat)) : List Nat :=
  (List.range 40).map (fun k =>
    if live.any (fun p => p.1 * 10 + p.2 = k) then 0
    else if expl.any (fun p => p.1 * 10 + p.2 = k) then 1 else 2)

/-- A frame input with no keys held and random draws that never fire. -/
def noFireInput (dt : ℚ) : FrameInput :=
  { dt := dt, keyLeft := false, keyRight := false, keySpace := false, keyEsc := false,
    rand := fun _ _ => 1, scoreTxt := [] }

/-! ## Concrete scenario states -/

/-- C3 scenario: the formation has descended to origin row 21 so that the
alive alien (2,5) is rendered on row 25, directly above the left shield's
bottom row; the player bullet is one row below it, inside the shield. -/
def c3pre0 : GameState :=
  { initRound with
      nAlienBlockY := 21
      alienState := deadExcept [(2, 5)] []
      bullet := { visible := true, x := 32, y := 53/2, glyph := '|' } }

/-- C3 scenario with the screen rendered from the same state. -/
def c3pre : GameState := { c3pre0 with screen := renderScreenOf c3pre0 [] }

/-- The C3 scenario one player-bullet update later. -/
def c3post : GameState := updatePlayerBullet (noFireInput (1/40)) c3pre

/-- C10 scenario: the formation has descended to origin row 25; alien (0,0)
is currently Exploding (rendered as `x`), every other cell Dead, and the
player bullet is one row below its glyphs. -/
def c10pre0 : GameState :=
  { initRound with
      nAlienBlockY := 25
      alienState := deadExcept [] [(0, 0)]
      nAlienExploding := 0
      fExplodingElapsed := 2/10
      nScore := 100
      bullet := { visible := true, x := 3, y := 53/2, glyph := '|' } }

/-- C10 scenario with the screen rendered from the same state. -/
def c10pre : GameState := { c10pre0 with screen := renderScreenOf c10pre0 [] }

/-- The C10 scenario one player-bullet update later. -/
def c10post : GameState := updatePlayerBullet (noFireInput (1/40)) c10pre

/-- C1 scenario: alien (0,0) is Exploding with 0.3 time-units on the shared
timer, alien (0,1) is Alive with the player bullet one row below it. -/
def c1pre0 : GameState :=
  { initRound with
      nAlienBlockY := 25
      alienState := deadExcept [(0, 1)] [(0, 0)]
      nAlienExploding := 0
      fExplodingElapsed := 3/10
      nScore := 100
      bullet := { visible := true, x := 8, y := 53/2, glyph := '|' } }

/-- C1 scenario with the screen rendered from the same state. -/
def c1pre : GameState := { c1pre0 with screen := renderScreenOf c1pre0 [] }

/-- The C1 scenario one full frame later. -/
def c1post : GameState := frameStep (noFireInput (1/40)) c1pre

/-- C7 scenario: the formation origin has reached row 26 (bottom threshold)
while an enemy bullet is one row short of the player's row, aligned with the
player, and the player has all 3 lives. -/
def c7pre : GameState :=
  { initRound with
      nAlienBlockY := 26
      alienState := List.replicate 40 2
      alienBullets :=
        [{ visible := true, x := 59, y := 148/5, glyph := '*' },
         { visible := false, x := 0, y := 0, glyph := '*' },
         { visible := false, x := 0, y := 0, glyph := '*' },
         { visible := false, x := 0, y := 0, glyph := '*' },
         { visible := false, x := 0, y := 0, glyph := '*' }] }

/-- The C7 scenario one full frame later. -/
def c7post : GameState := frameStep (noFireInput (1/50)) c7pre

/-- C4 inputs: the spacebar sampled held, with a short and a long frame. -/
def c4inpA : FrameInput := { noFireInput (1/100) with keySpace := true }

/-- C4 long-frame input (the bullet leaves the screen in one step). -/
def c4inpB : FrameInput := { noFireInput 2 with keySpace := true }

/-- C4 trace: four consecutive firing-block updates from the round start,
the spacebar sampled held at every one of them. -/
def c4g1 : GameState := updatePlayerBullet c4inpA initRound

/-- Second C4 frame: the bullet flies off the top. -/
def c4g2 : GameState := updatePlayerBullet c4inpB c4g1

/-- Third C4 frame: the latch re-arms although the key is still held. -/
def c4g3 : GameState := updatePlayerBullet c4inpA c4g2

/-- Fourth C4 frame: a second bullet is fired without any release. -/
def c4g4 : GameState := updatePlayerBullet c4inpA c4g3

/-- C5 scenario: the formation has reached the right edge on a movement
tick, with the initial animation delay. -/
def c5pre : GameState := { initRound with nAlienBlockX := 60 }

/-- The C5 scenario after the movement update on an animation tick. -/
def c5post : GameState := moveAliens true c5pre

/-- C6 scenario screen: only the start of the score line is rendered (row 0
holds text such as `Score:` every frame). -/
def c6scr : Screen := drawText ClearBuffer 2 ['S', 'c', 'o', 'r', 'e']

/-- C6 scenario bullet: about to test the cell at row 0, column 5, which
holds score-line text and no alien footprint. -/
def c6bullet : Bullet := { visible := true, x := 5, y := 6/5, glyph := '|' }

/-- C9 scenario pool: a single free slot. -/
def c9pool : List Bullet := [{ visible := false, x := 0, y := 0, glyph := '*' }]

/-! ## Concrete witness inputs -/

/-- A shield whose cells are all worn down to strength 0. -/
def c2zeroShield : Shield := { m_strength := List.replicate 24 0, nX := 30, nY := 24 }

/-- A full enemy-bullet pool (all five slots visible). -/
def c8fullPool : List Bullet :=
  List.replicate 5 { visible := true, x := 7, y := 9, glyph := '*' }

/-- C7 witness state: formation at the bottom threshold, no enemy bullet in
flight. -/
def c7wpre : GameState := { initRound with nAlienBlockY := 26 }

/-- C3 witness (enemy-bullet part): the shared loop state with the default
shields. -/
def c3wst : ABState :=
  { shields := initShields, bPlayerHit := false, nLives := 3, bGameOver := false,
    fPlayerX := 117/2, dt := 1/40 }

/-- C3 witness (enemy-bullet part): an enemy bullet entering the left
shield's bottom row this frame. -/
def c3wb : Bullet := { visible := true, x := 32, y := 51/2, glyph := '*' }

/-- C1 witness state for the Exploding-to-Dead transition: the shared timer
has accumulated the full 0.6 time-units for the tracked cell 0. -/
def c1bg : GameState :=
  { initRound with
      alienState := deadExcept [] [(0, 0)]
      nAlienExploding := 0
      fExplodingElapsed := 6/10 }

/-- C1 witness state for the still-counting branch: 0.3 accumulated. -/
def c1cg : GameState :=
  { initRound with
      alienState := deadExcept [] [(0, 0)]
      nAlienExploding := 0
      fExplodingElapsed := 3/10 }

/-! # Theorems -/

/-! ## List helper lemmas -/

theorem getD_set_self {α : Type} (l : List α) (n : Nat) (v d : α) (h : n < l.length) :
    (l.set n v).getD n d = v := by
  simp [List.getD_eq_getElem?_getD, List.getElem?_set_self h]

theorem getD_set_ne {α : Type} (l : List α) (n k : Nat) (v d : α) (h : n ≠ k) :
    (l.set n v).getD k d = l.getD k d := by
  simp [List.getD_eq_getElem?_getD, List.getElem?_set_ne h]

theorem getD_set_or {α : Type} (l : List α) (n k : Nat) (v d : α) :
    (l.set n v).getD k d = v ∨ (l.set n v).getD k d = l.getD k d := by
  by_cases hnk : n = k
  · subst hnk
    by_cases hl : n < l.length
    · exact Or.inl (getD_set_self l n v d hl)
    · exact Or.inr (by rw [List.set_eq_of_length_le (Nat.le_of_not_lt hl)])
  · exact Or.inr (getD_set_ne l n k v d hnk)

theorem getD_replicate {α : Type} (n k : Nat) (a d : α) (h : k < n) :
    (List.replicate n a).getD k d = a := by
  simp [List.getD_eq_getElem?_getD, List.getElem?_replicate_of_lt h]

theorem foldl_preserves {α β γ : Type} (f : α → γ) (b : α → β → α)
    (h : ∀ a x, f (b a x) = f a) :
    ∀ (l : List β) (a : α), f (List.foldl b a l) = f a
  | [], _ => rfl
  | x :: xs, a => by rw [List.foldl_cons, foldl_preserves f b h xs, h]

/-! ## Shield lemmas -/

theorem Shield.hit_not_inFootprint (s : Shield) (c r : Int) (h : ¬s.inFootprint c r) :
    s.hit c r = (false, s) := by
  unfold hit; rw [if_neg h]

theorem Shield.hit_zero (s : Shield) (c r : Int) (h : s.inFootprint c r)
    (hz : s.cellVal c r = 0) : s.hit c r = (false, s) := by
  unfold hit; rw [if_pos h, if_neg (by omega)]

theorem Shield.hit_nX (s : Shield) (c r : Int) : (s.hit c r).2.nX = s.nX := by
  unfold hit; split <;> [split <;> rfl; rfl]

theorem Shield.hit_nY (s : Shield) (c r : Int) : (s.hit c r).2.nY = s.nY := by
  unfold hit; split <;> [split <;> rfl; rfl]

theorem Shield.hit_length (s : Shield) (c r : Int) :
    (s.hit c r).2.m_strength.length = s.m_strength.length := by
  unfold hit; split
  · split
    · exact List.length_set ..
    · rfl
  · rfl

theorem Shield.hit_true_inFootprint (s : Shield) (c r : Int) (h : (s.hit c r).1 = true) :
    s.inFootprint c r := by
  by_contra hn
  rw [Shield.hit_not_inFootprint s c r hn] at h
  exact Bool.false_ne_true h

theorem Shield.cellOff_bounds (s : Shield) (c r : Int) (h : s.inFootprint c r) :
    0 ≤ s.cellOff c r ∧ s.cellOff c r < 24 := by
  simp only [Shield.inFootprint, Shield.Length, Shield.Height] at h
  simp only [Shield.cellOff, Shield.Length]
  omega

theorem Shield.hit_cell_le (s : Shield) (c r : Int) (k : Nat) :
    (s.hit c r).2.m_strength.getD k 0 ≤ s.m_strength.getD k 0 := by
  unfold hit
  split
  · split
    · rename_i hfp hpos
      dsimp only
      by_cases hk : (s.cellOff c r).toNat = k
      · subst hk
        by_cases hl : (s.cellOff c r).toNat < s.m_strength.length
        · rw [getD_set_self _ _ _ 0 hl]
          unfold cellVal at hpos ⊢
          omega
        · rw [List.set_eq_of_length_le (Nat.le_of_not_lt hl)]
      · rw [getD_set_ne _ _ _ _ _ hk]
    · exact le_refl _
  · exact le_refl _

theorem Shield.hit_cell_self (s : Shield) (c r : Int) (h : s.inFootprint c r)
    (hpos : 0 < s.cellVal c r) (hlen : s.m_strength.length = 24) :
    (s.hit c r).1 = true ∧ (s.hit c r).2.cellVal c r = s.cellVal c r - 1 ∧
    (∀ k : Nat, k ≠ (s.cellOff c r).toNat →
      (s.hit c r).2.m_strength.getD k 0 = s.m_strength.getD k 0) := by
  have hb := Shield.cellOff_bounds s c r h
  unfold hit
  rw [if_pos h, if_pos (by omega)]
  refine ⟨rfl, ?_, ?_⟩
  · show (s.m_strength.set (s.cellOff c r).toNat
      (s.cellVal c r - 1)).getD (s.cellOff c r).toNat 0 = s.cellVal c r - 1
    exact getD_set_self _ _ _ 0 (by rw [hlen]; omega)
  · intro k hk
    exact getD_set_ne _ _ _ _ _ (fun he => hk he.symm)

theorem Shield.hitIter_invariants (x y c r : Int)
    (h : (Shield.init x y).inFootprint c r) :
    ∀ n : Nat,
      ((Shield.init x y).hitIter c r n).nX = x ∧
      ((Shield.init x y).hitIter c r n).nY = y ∧
      ((Shield.init x y).hitIter c r n).m_strength.length = 24 ∧
      ((Shield.init x y).hitIter c r n).cellVal c r = max (3 - (n : Int)) 0
  | 0 => by
    have hb := Shield.cellOff_bounds _ c r h
    refine ⟨rfl, rfl, by simp [Shield.hitIter, Shield.init], ?_⟩
    show (Shield.init x y).cellVal c r = _
    show (List.replicate 24 Shield.MaxStrength).getD
      ((Shield.init x y).cellOff c r).toNat 0 = _
    rw [getD_replicate 24 _ _ 0 (by omega)]
    simp only [Shield.MaxStrength]
    omega
  | n + 1 => by
    obtain ⟨ih1, ih2, ih3, ih4⟩ := Shield.hitIter_invariants x y c r h n
    set s := (Shield.init x y).hitIter c r n with hs
    have hfp : s.inFootprint c r := by
      unfold Shield.inFootprint at h ⊢
      rw [ih1, ih2]; exact h
    show (s.hit c r).2.nX = x ∧ (s.hit c r).2.nY = y ∧
      (s.hit c r).2.m_strength.length = 24 ∧
      (s.hit c r).2.cellVal c r = max (3 - ((n : Nat) + 1 : Nat) : Int) 0
    refine ⟨by rw [Shield.hit_nX, ih1], by rw [Shield.hit_nY, ih2],
      by rw [Shield.hit_length, ih3], ?_⟩
    by_cases hpos : 0 < s.cellVal c r
    · obtain ⟨_, h2, _⟩ := Shield.hit_cell_self s c r hfp hpos ih3
      rw [h2, ih4]
      push_cast
      omega
    · rw [Shield.hit_zero s c r hfp (by omega)]
      rw [ih4] at hpos ⊢
      push_cast
      omega

theorem Shield.hitIter_hit_true_iff (x y c r : Int)
    (h : (Shield.init x y).inFootprint c r) (n : Nat) :
    (((Shield.init x y).hitIter c r n).hit c r).1 = decide (n < 3) := by
  obtain ⟨ih1, ih2, ih3, ih4⟩ := Shield.hitIter_invariants x y c r h n
  set s := (Shield.init x y).hitIter c r n with hs
  have hfp : s.inFootprint c r := by
    unfold Shield.inFootprint at h ⊢
    rw [ih1, ih2]; exact h
  by_cases hn : n < 3
  · have hpos : 0 < s.cellVal c r := by rw [ih4]; omega
    obtain ⟨h1, _, _⟩ := Shield.hit_cell_self s c r hfp hpos ih3
    rw [h1]
    simp [hn]
  · have hz : s.cellVal c r = 0 := by rw [ih4]; omega
    rw [Shield.hit_zero s c r hfp hz]
    simp [hn]

/-! ## hitShields lemmas -/

theorem hitShields_cells_le (c r : Int) :
    ∀ (shs : List Shield) (si k : Nat),
      shieldCells (hitShields shs c r).2 si k ≤ shieldCells shs si k
  | [], _, _ => le_refl _
  | sh :: rest, si, k => by
    unfold hitShields
    dsimp only
    match si with
    | 0 =>
      show (sh.hit c r).2.m_strength.getD k 0 ≤ sh.m_strength.getD k 0
      exact Shield.hit_cell_le sh c r k
    | si + 1 =>
      show shieldCells (hitShields rest c r).2 si k ≤ shieldCells rest si k
      exact hitShields_cells_le c r rest si k

theorem hitShields_true_exists (c r : Int) :
    ∀ shs : List Shield, (hitShields shs c r).1 = true →
      ∃ sh ∈ shs, (sh.hit c r).1 = true
  | [], h => by simp [hitShields] at h
  | sh :: rest, h => by
    unfold hitShields at h
    dsimp only at h
    rcases Bool.or_eq_true_iff.mp h with h1 | h1
    · exact ⟨sh, List.mem_cons_self sh rest, h1⟩
    · obtain ⟨sh2, hm, hh⟩ := hitShields_true_exists c r rest h1
      exact ⟨sh2, List.mem_cons_of_mem sh hm, hh⟩

/-! ## Per-step preservation lemmas -/

theorem escCheck_alienState (c : Bool) (g : GameState) :
    (escCheck c g).alienState = g.alienState := by
  unfold escCheck; split <;> rfl

theorem escCheck_shields (c : Bool) (g : GameState) :
    (escCheck c g).shields = g.shields := by
  unfold escCheck; split <;> rfl

theorem escCheck_alienBullets (c : Bool) (g : GameState) :
    (escCheck c g).alienBullets = g.alienBullets := by
  unfold escCheck; split <;> rfl

theorem escCheck_nAlienBlockY (c : Bool) (g : GameState) :
    (escCheck c g).nAlienBlockY = g.nAlienBlockY := by
  unfold escCheck; split <;> rfl

theorem movePlayer_alienState (inp : FrameInput) (g : GameState) :
    (movePlayer inp g).alienState = g.alienState := by
  unfold movePlayer; dsimp only; split_ifs <;> rfl

theorem movePlayer_shields (inp : FrameInput) (g : GameState) :
    (movePlayer inp g).shields = g.shields := by
  unfold movePlayer; dsimp only; split_ifs <;> rfl

theorem movePlayer_alienBullets (inp : FrameInput) (g : GameState) :
    (movePlayer inp g).alienBullets = g.alienBullets := by
  unfold movePlayer; dsimp only; split_ifs <;> rfl

theorem movePlayer_nAlienBlockY (inp : FrameInput) (g : GameState) :
    (movePlayer inp g).nAlienBlockY = g.nAlienBlockY := by
  unfold movePlayer; dsimp only; split_ifs <;> rfl

theorem updatePlayerBullet_alienBullets (inp : FrameInput) (g : GameState) :
    (updatePlayerBullet inp g).alienBullets = g.alienBullets := by
  unfold updatePlayerBullet; dsimp only; split_ifs <;> rfl

theorem updatePlayerBullet_bGameOver (inp : FrameInput) (g : GameState) :
    (updatePlayerBullet inp g).bGameOver = g.bGameOver := by
  unfold updatePlayerBullet; dsimp only; split_ifs <;> rfl

theorem updatePlayerBullet_nAlienBlockY (inp : FrameInput) (g : GameState) :
    (updatePlayerBullet inp g).nAlienBlockY = g.nAlienBlockY := by
  unfold updatePlayerBullet; dsimp only; split_ifs <;> rfl

theorem updatePlayerBullet_shields_le (inp : FrameInput) (g : GameState) (si k : Nat) :
    shieldCells (updatePlayerBullet inp g).shields si k ≤ shieldCells g.shields si k := by
  unfold updatePlayerBullet
  dsimp only
  split_ifs <;> first
    | exact le_refl _
    | exact hitShields_cells_le _ _ g.shields si k

theorem setAlienState_nonzero (l : List Nat) (idx : Int) (v : Nat) (k : Nat)
    (hv : v ≠ 0) (h : l.getD k 0 ≠ 0) : (setAlienState l idx v).getD k 0 ≠ 0 := by
  unfold setAlienState
  split
  · rcases getD_set_or l idx.toNat k v 0 with he | he <;> rw [he]
    · exact hv
    · exact h
  · exact h

theorem updatePlayerBullet_alienState_nonzero (inp : FrameInput) (g : GameState)
    (k : Nat) (h : g.alienState.getD k 0 ≠ 0) :
    (updatePlayerBullet inp g).alienState.getD k 0 ≠ 0 := by
  unfold updatePlayerBullet
  dsimp only
  split_ifs <;> first
    | exact h
    | exact setAlienState_nonzero g.alienState _ 1 k (by decide) h

theorem moveAliens_alienState (b : Bool) (g : GameState) :
    (moveAliens b g).alienState = g.alienState := by
  unfold moveAliens; split_ifs <;> rfl

theorem moveAliens_shields (b : Bool) (g : GameState) :
    (moveAliens b g).shields = g.shields := by
  unfold moveAliens; split_ifs <;> rfl

theorem moveAliens_alienBullets (b : Bool) (g : GameState) :
    (moveAliens b g).alienBullets = g.alienBullets := by
  unfold moveAliens; split_ifs <;> rfl

theorem moveAliens_bottom (b : Bool) (g : GameState)
    (h : g.nAlienBlockY + nAlienBlockHeight ≥ nScreenHeight) :
    moveAliens b g = { g with bGameOver := true, nAlienBlockY := 2 } := by
  unfold moveAliens
  rw [if_pos h]

theorem alienFiringStep_pres {γ : Type} (f : GameState → γ)
    (hf : ∀ (g : GameState) (bs : List Bullet), f { g with alienBullets := bs } = f g)
    (inp : FrameInput) (g : GameState) : f (alienFiringStep inp g) = f g := by
  unfold alienFiringStep
  refine foldl_preserves f _ (fun g1 i => ?_) _ g
  refine foldl_preserves f _ (fun g2 j => ?_) _ g1
  dsimp only
  split_ifs <;> first | rfl | exact hf g2 _

theorem alienFiringStep_alienState (inp : FrameInput) (g : GameState) :
    (alienFiringStep inp g).alienState = g.alienState :=
  alienFiringStep_pres (fun s => s.alienState) (fun _ _ => rfl) inp g

theorem alienFiringStep_shields (inp : FrameInput) (g : GameState) :
    (alienFiringStep inp g).shields = g.shields :=
  alienFiringStep_pres (fun s => s.shields) (fun _ _ => rfl) inp g

theorem alienFiringStep_bGameOver (inp : FrameInput) (g : GameState) :
    (alienFiringStep inp g).bGameOver = g.bGameOver :=
  alienFiringStep_pres (fun s => s.bGameOver) (fun _ _ => rfl) inp g

theorem alienFiringStep_alienBullets_noFire (inp : FrameInput) (g : GameState)
    (hr : ∀ i j : Nat, 2/10 ≤ inp.rand i j) :
    (alienFiringStep inp g).alienBullets = g.alienBullets := by
  unfold alienFiringStep
  refine foldl_preserves GameState.alienBullets _ (fun g1 i => ?_) _ g
  refine foldl_preserves GameState.alienBullets _ (fun g2 j => ?_) _ g1
  dsimp only
  split_ifs <;> first
    | rfl
    | (exfalso; rename_i hlt; linarith [hr i j])

theorem stepAlienBullet_invisible (st : ABState) (b : Bullet)
    (h : b.visible = false) : stepAlienBullet st b = (st, b) := by
  unfold stepAlienBullet
  rw [h]
  rfl

theorem stepAlienBullets_invisible (st : ABState) :
    ∀ bs : List Bullet, (∀ b ∈ bs, b.visible = false) →
      stepAlienBullets st bs = (st, bs)
  | [], _ => rfl
  | b :: bs, h => by
    unfold stepAlienBullets
    rw [stepAlienBullet_invisible st b (h b (List.mem_cons_self b bs))]
    dsimp only
    rw [stepAlienBullets_invisible st bs (fun x hx => h x (List.mem_cons_of_mem b hx))]

theorem stepAlienBullet_shields_le (st : ABState) (b : Bullet) (si k : Nat) :
    shieldCells (stepAlienBullet st b).1.shields si k ≤ shieldCells st.shields si k := by
  unfold stepAlienBullet
  dsimp only
  split_ifs <;> first
    | exact le_refl _
    | exact hitShields_cells_le _ _ st.shields si k

theorem stepAlienBullets_shields_le (si k : Nat) :
    ∀ (bs : List Bullet) (st : ABState),
      shieldCells (stepAlienBullets st bs).1.shields si k ≤ shieldCells st.shields si k
  | [], st => le_refl _
  | b :: bs, st => by
    unfold stepAlienBullets
    dsimp only
    exact le_trans (stepAlienBullets_shields_le si k bs (stepAlienBullet st b).1)
      (stepAlienBullet_shields_le st b si k)

theorem alienBulletsStep_alienState (inp : FrameInput) (g : GameState) :
    (alienBulletsStep inp g).alienState = g.alienState := rfl

theorem alienBulletsStep_nAlienBlockY (inp : FrameInput) (g : GameState) :
    (alienBulletsStep inp g).nAlienBlockY = g.nAlienBlockY := rfl

theorem alienBulletsStep_shields_le (inp : FrameInput) (g : GameState) (si k : Nat) :
    shieldCells (alienBulletsStep inp g).shields si k ≤ shieldCells g.shields si k := by
  unfold alienBulletsStep
  dsimp only
  exact stepAlienBullets_shields_le si k g.alienBullets _

theorem alienBulletsStep_bGameOver_invisible (inp : FrameInput) (g : GameState)
    (h : ∀ b ∈ g.alienBullets, b.visible = false) :
    (alienBulletsStep inp g).bGameOver = g.bGameOver := by
  unfold alienBulletsStep
  dsimp only
  rw [stepAlienBullets_invisible _ g.alienBullets h]

theorem animateExplodingAlien_shields (dt : ℚ) (g : GameState) :
    (animateExplodingAlien dt g).shields = g.shields := by
  unfold animateExplodingAlien; split_ifs <;> rfl

theorem animateExplodingAlien_bGameOver (dt : ℚ) (g : GameState) :
    (animateExplodingAlien dt g).bGameOver = g.bGameOver := by
  unfold animateExplodingAlien; split_ifs <;> rfl

theorem animateExplodingAlien_alienState_nonzero (dt : ℚ) (g : GameState)
    (k : Nat) (h : g.alienState.getD k 0 ≠ 0) :
    (animateExplodingAlien dt g).alienState.getD k 0 ≠ 0 := by
  unfold animateExplodingAlien
  split_ifs <;> first
    | exact h
    | exact setAlienState_nonzero g.alienState _ 2 k (by decide) h

theorem animateExplodingPlayer_alienState (dt : ℚ) (g : GameState) :
    (animateExplodingPlayer dt g).alienState = g.alienState := by
  unfold animateExplodingPlayer; split_ifs <;> rfl

theorem animateExplodingPlayer_shields (dt : ℚ) (g : GameState) :
    (animateExplodingPlayer dt g).shields = g.shields := by
  unfold animateExplodingPlayer; split_ifs <;> rfl

theorem animateExplodingPlayer_bGameOver (dt : ℚ) (g : GameState) :
    (animateExplodingPlayer dt g).bGameOver = g.bGameOver := by
  unfold animateExplodingPlayer; split_ifs <;> rfl

theorem renderFrame_alienState (b : Bool) (inp : FrameInput) (g : GameState) :
    (renderFrame b inp g).alienState = g.alienState := by
  unfold renderFrame; dsimp only; split_ifs <;> rfl

theorem renderFrame_shields (b : Bool) (inp : FrameInput) (g : GameState) :
    (renderFrame b inp g).shields = g.shields := by
  unfold renderFrame; dsimp only; split_ifs <;> rfl

theorem renderFrame_bGameOver (b : Bool) (inp : FrameInput) (g : GameState) :
    (renderFrame b inp g).bGameOver = g.bGameOver := by
  unfold renderFrame; dsimp only; split_ifs <;> rfl

/-! ## Frame-level composition lemmas -/

theorem frameStep_shields_le (inp : FrameInput) (g : GameState) (si k : Nat) :
    shieldCells (frameStep inp g).shields si k ≤ shieldCells g.shields si k := by
  unfold frameStep
  dsimp only
  rw [renderFrame_shields, animateExplodingPlayer_shields, animateExplodingAlien_shields]
  refine le_trans (alienBulletsStep_shields_le _ _ _ _) ?_
  rw [alienFiringStep_shields, moveAliens_shields]
  refine le_trans (updatePlayerBullet_shields_le _ _ _ _) ?_
  rw [movePlayer_shields, escCheck_shields]

theorem frameStep_alienState_nonzero (inp : FrameInput) (g : GameState)
    (k : Nat) (h : g.alienState.getD k 0 ≠ 0) :
    (frameStep inp g).alienState.getD k 0 ≠ 0 := by
  unfold frameStep
  dsimp only
  rw [renderFrame_alienState, animateExplodingPlayer_alienState]
  apply animateExplodingAlien_alienState_nonzero
  rw [alienBulletsStep_alienState, alienFiringStep_alienState, moveAliens_alienState]
  apply updatePlayerBullet_alienState_nonzero
  rw [movePlayer_alienState, escCheck_alienState]
  exact h

theorem Shield.hit_cell_nonneg (s : Shield) (c r : Int) (k : Nat)
    (h : 0 ≤ s.m_strength.getD k 0) : 0 ≤ (s.hit c r).2.m_strength.getD k 0 := by
  unfold Shield.hit
  split
  · split
    · rename_i hfp hpos
      dsimp only
      by_cases hk : (s.cellOff c r).toNat = k
      · subst hk
        by_cases hl : (s.cellOff c r).toNat < s.m_strength.length
        · rw [getD_set_self _ _ _ 0 hl]
          unfold Shield.cellVal at hpos ⊢
          omega
        · rw [List.set_eq_of_length_le (Nat.le_of_not_lt hl)]
          exact h
      · rw [getD_set_ne _ _ _ _ _ hk]
        exact h
    · exact h
  · exact h

theorem alienFire_full (nABX nABY : Int) (i j : Nat) :
    ∀ bs : List Bullet, (∀ b ∈ bs, b.visible = true) →
      AlienFire nABX nABY i j bs = (false, bs)
  | [], _ => rfl
  | b :: bs, h => by
    unfold AlienFire
    rw [h b (List.mem_cons_self b bs)]
    dsimp only
    rw [alienFire_full nABX nABY i j bs (fun x hx => h x (List.mem_cons_of_mem b hx))]
    rfl

/-- Claim C1, counterexample: from a state in which alien (0,0) is Exploding
with 0.3 time-units on the shared timer and the player bullet is about to
strike the alive alien (0,1), one frame step leaves BOTH cells in the
Exploding state: the "at most one Exploding cell" invariant fails, because
the strike re-points the single tracking index at the new cell and the first
cell is left Exploding (it will never transition to Dead). -/
theorem C1_counterexample :
    c1pre.alienState.getD 0 0 = 1 ∧ c1pre.alienState.getD 1 0 = 0 ∧
    c1pre.nAlienExploding = 0 ∧
    c1post.alienState.getD 0 0 = 1 ∧ c1post.alienState.getD 1 0 = 1 ∧
    c1post.nAlienExploding = 1 ∧
    explodingCount c1post.alienState = 2 := by
  with_unfolding_all decide

/-- Claim C3, counterexample: in the c3 scenario the player bullet is
absorbed by the left shield (its strength cell drops from 3 to 2 and the
bullet is removed), yet `HitAlien` still runs in the same frame and reads
the alien glyph one row above the absorption point, so alien (2,5) is marked
Exploding and 100 points are awarded — refuting "a projectile absorbed by a
shield never also triggers the enemy hit-test that frame". -/
theorem C3_counterexample :
    (hitShields c3pre.shields (roundf (movedPlayerBullet (noFireInput (1/40)) c3pre).x)
      (roundf (movedPlayerBullet (noFireInput (1/40)) c3pre).y)).1 = true ∧
    c3post.bullet.visible = false ∧
    shieldCells c3post.shields 0 18 = shieldCells c3pre.shields 0 18 - 1 ∧
    c3pre.alienState.getD 25 0 = 0 ∧ c3post.alienState.getD 25 0 = 1 ∧
    c3post.nAlienExploding = 25 ∧
    c3post.nScore = c3pre.nScore + 100 := by
  with_unfolding_all decide

/-- Claim C7, counterexample: the formation origin has reached the bottom
threshold (26 + 4 ≥ 30) and the player still has 3 lives, but in the same
frame an enemy bullet confirms a hit on the player; the later assignment
`bGameOver = nLives == 0` overwrites the loss signal, so after the frame the
round is NOT over — refuting "ends immediately that frame ... independent of
the player's remaining lives". -/
theorem C7_counterexample :
    c7pre.nAlienBlockY + nAlienBlockHeight ≥ nScreenHeight ∧
    c7pre.nLives = 3 ∧
    c7post.bGameOver = false ∧
    c7post.nLives = 2 ∧
    c7post.bPlayerHit = true ∧
    c7post.nAlienBlockY = 2 := by
  with_unfolding_all decide

/-- Claim C4 (code bug): with the spacebar sampled held at every frame —
never once observed false — the firing latch still re-arms.  Frame 1 fires;
frame 2 the bullet leaves the screen; frame 3 takes the latch-else branch
(commented "spacebar released" in the source) although the key is held, and
re-arms; frame 4 fires a second bullet.  The claim that the latch re-arms
only when the fire input is observed false is false of the code. -/
theorem C4_held_key_refires :
    c4inpA.keySpace = true ∧ c4inpB.keySpace = true ∧
    c4g1.bullet.visible = true ∧ c4g1.bKeyHoldSpace = false ∧
    c4g2.bullet.visible = false ∧ c4g2.bKeyHoldSpace = false ∧
    c4g3.bullet.visible = false ∧ c4g3.bKeyHoldSpace = true ∧
    c4g4.bullet.visible = true ∧ c4g4.bullet.y = 28 := by
  with_unfolding_all decide

/-- Claim C5 (code bug): at a right-edge bounce on a movement tick the step
direction flips, the formation advances one row down and one column inward —
but the animation delay is unchanged at its initial 0.35, because the
decrement `fAnimDelay -= (fAnimDelay > 10.0) ? 0.05f : 0.0f` only applies
when the delay exceeds 10.0, which never holds (it starts at 0.35 and is
never increased).  The claimed speed-up never happens. -/
theorem C5_anim_delay_never_decreases :
    c5pre.nAlienBlockX + 2 * nAlienBlockWidth * nAlienGlyphWidth ≥ nScreenWidth ∧
    c5pre.fAnimDelay = 35/100 ∧
    c5post.nAlienStep = -1 ∧
    c5post.nAlienBlockY = c5pre.nAlienBlockY + 1 ∧
    c5post.nAlienBlockX = c5pre.nAlienBlockX - 1 ∧
    c5post.fAnimDelay = 35/100 := by
  with_unfolding_all decide

/-- Claim C6 (code bug): out-of-bounds indices do occur.  (1) With the
formation origin at the in-play row 24 (24 + 4 < 30, so the round is not
over), drawing the alive alien (3,0) writes through offset 3602, beyond the
3600-cell screen buffer — the block's drawn height is `2*i + Y`, not the
`nAlienBlockHeight` used by the bottom check.  (2) When `HitAlien` reports a
hit from row-0 score-line text but its footprint scan matches no alien, the
out-parameters keep their initial −1 values and the caller then indexes
`alienState` at −11. -/
theorem C6_out_of_bounds :
    (GetAlienScreenOffset 2 24 3 0 = 3602 ∧
     nScreenWidth * nScreenHeight = 3600 ∧
     ¬(GetAlienScreenOffset 2 24 3 0 < nScreenWidth * nScreenHeight) ∧
     24 + nAlienBlockHeight < nScreenHeight ∧
     (DrawAliens (List.replicate 40 0) 2 24 0 ClearBuffer) 3602 ≠ ' ') ∧
    (HitAlien c6scr 2 2 c6bullet (-1) (-1) = (true, -1, -1) ∧
     (-1 : Int) * 10 + -1 = -11 ∧
     ¬(0 ≤ (-11 : Int))) := by
  with_unfolding_all decide

/-- Claim C9 (code bug): a successful firing attempt by enemy (3,0) with the
block origin at (2,2) spawns the bullet at row 6, but that enemy's glyphs
are rendered on row 8 (`GetAlienScreenOffset` uses row `2*i + Y` while
`AlienFire` uses `Y + i + 1`), so the spawn cell is not the cell immediately
below the enemy's glyph row (row 9): the bullet appears inside the
formation, two rows above its enemy. -/
theorem C9_spawn_row_mismatch :
    (AlienFire 2 2 3 0 c9pool).1 = true ∧
    ((AlienFire 2 2 3 0 c9pool).2.getD 0 initPlayerBullet).y = 6 ∧
    ((AlienFire 2 2 3 0 c9pool).2.getD 0 initPlayerBullet).x = 3 ∧
    GetAlienScreenOffset 2 2 3 0 = 8 * nScreenWidth + 2 ∧
    ((AlienFire 2 2 3 0 c9pool).2.getD 0 initPlayerBullet).y ≠ ((8 : ℚ) + 1) := by
  with_unfolding_all decide

/-- Claim C10, confirmed: the transparent set of the player-bullet hit-test
is exactly `*`, `#`, `=`, `-`, space, and does not contain the explosion
glyph `x`.  In the c10 scenario the bullet's test cell holds the `x` of the
currently-Exploding alien (0,0), so the hit registers again: the cell is set
to Exploding once more, the shared explosion timer restarts at 0, and the
score rises by a further 100 — the same enemy scores twice. -/
theorem C10_exploding_rehit :
    specialChars = ['*', '#', '=', '-', ' '] ∧
    'x' ∉ specialChars ∧
    c10pre.alienState.getD 0 0 = 1 ∧
    c10pre.nAlienExploding = 0 ∧
    c10pre.screen (25 * nScreenWidth + 3) = 'x' ∧
    c10post.alienState.getD 0 0 = 1 ∧
    c10post.nAlienExploding = 0 ∧
    c10post.fExplodingElapsed = 0 ∧
    c10post.nScore = c10pre.nScore + 100 := by
  with_unfolding_all decide

/-- Claim C1, amended: a single shared index tracks at most one exploding
cell and the tracked cell transitions to Dead at the first frame at which
the shared timer has accumulated at least 0.6 time-units (while under 0.6 it
only accumulates); and no enemy cell ever reverts out of Exploding/Dead to
Alive over a frame step.  However (see the counterexample) striking a second
enemy while one is Exploding re-points the index, leaving both cells
Exploding and the first one Exploding forever. -/
theorem C1_amended :
    (∀ (inp : FrameInput) (g : GameState) (k : Nat),
       g.alienState.getD k 0 ≠ 0 →
       (frameStep inp g).alienState.getD k 0 ≠ 0) ∧
    (∀ (dt : ℚ) (g : GameState),
       g.nAlienExploding ≠ -1 → ¬(g.fExplodingElapsed < 6/10) →
       0 ≤ g.nAlienExploding → g.nAlienExploding.toNat < g.alienState.length →
       (animateExplodingAlien dt g).alienState.getD g.nAlienExploding.toNat 0 = 2 ∧
       (animateExplodingAlien dt g).nAlienExploding = -1 ∧
       (animateExplodingAlien dt g).fExplodingElapsed = 0) ∧
    (∀ (dt : ℚ) (g : GameState),
       g.nAlienExploding ≠ -1 → g.fExplodingElapsed < 6/10 →
       (animateExplodingAlien dt g).alienState = g.alienState ∧
       (animateExplodingAlien dt g).nAlienExploding = g.nAlienExploding ∧
       (animateExplodingAlien dt g).fExplodingElapsed = g.fExplodingElapsed + dt) := by
  refine ⟨frameStep_alienState_nonzero, ?_, ?_⟩
  · intro dt g h1 h2 h3 h4
    unfold animateExplodingAlien
    rw [if_pos h1, if_neg h2]
    refine ⟨?_, rfl, rfl⟩
    show (setAlienState g.alienState g.nAlienExploding 2).getD g.nAlienExploding.toNat 0 = 2
    unfold setAlienState
    rw [if_pos h3]
    exact getD_set_self _ _ _ 0 h4
  · intro dt g h1 h2
    unfold animateExplodingAlien
    rw [if_pos h1, if_pos h2]
    exact ⟨rfl, rfl, rfl⟩

/-- Closed instances of `C1_amended` at concrete states: the no-revert part
on the c10 state, and both explosion-timer branches. -/
theorem C1_amended_witness :
    (frameStep (noFireInput (1/40)) c10pre).alienState.getD 0 0 ≠ 0 ∧
    ((animateExplodingAlien (1/100) c1bg).alienState.getD 0 0 = 2 ∧
     (animateExplodingAlien (1/100) c1bg).nAlienExploding = -1 ∧
     (animateExplodingAlien (1/100) c1bg).fExplodingElapsed = 0) ∧
    ((animateExplodingAlien (1/100) c1cg).alienState = c1cg.alienState ∧
     (animateExplodingAlien (1/100) c1cg).nAlienExploding = c1cg.nAlienExploding ∧
     (animateExplodingAlien (1/100) c1cg).fExplodingElapsed =
       c1cg.fExplodingElapsed + 1/100) :=
  ⟨C1_amended.1 (noFireInput (1/40)) c10pre 0 (by decide),
   C1_amended.2.1 (1/100) c1bg (by decide) (by with_unfolding_all decide)
     (by decide) (by decide),
   C1_amended.2.2 (1/100) c1cg (by decide) (by with_unfolding_all decide)⟩

/-- Claim C2, confirmed: `Shield::hit` returns false with no change outside
the footprint or on a zero-strength cell; inside the footprint on a positive
cell it returns true and decrements exactly that cell; every cell is
monotonically non-increasing and stays in [0, MaxStrength] across hits (and
across whole frame steps, hits being the only mutation); and a full-strength
shield absorbs exactly MaxStrength hits at a cell before becoming
permanently pass-through there. -/
theorem C2_shield_hit :
    (∀ (s : Shield) (c r : Int), ¬s.inFootprint c r → s.hit c r = (false, s)) ∧
    (∀ (s : Shield) (c r : Int), s.inFootprint c r → s.cellVal c r = 0 →
       s.hit c r = (false, s)) ∧
    (∀ (s : Shield) (c r : Int), s.inFootprint c r → 0 < s.cellVal c r →
       s.m_strength.length = 24 →
       (s.hit c r).1 = true ∧
       (s.hit c r).2.cellVal c r = s.cellVal c r - 1 ∧
       (∀ k : Nat, k ≠ (s.cellOff c r).toNat →
          (s.hit c r).2.m_strength.getD k 0 = s.m_strength.getD k 0)) ∧
    (∀ (s : Shield) (c r : Int) (k : Nat),
       (s.hit c r).2.m_strength.getD k 0 ≤ s.m_strength.getD k 0) ∧
    (∀ (s : Shield) (c r : Int) (k : Nat),
       0 ≤ s.m_strength.getD k 0 → s.m_strength.getD k 0 ≤ Shield.MaxStrength →
       0 ≤ (s.hit c r).2.m_strength.getD k 0 ∧
       (s.hit c r).2.m_strength.getD k 0 ≤ Shield.MaxStrength) ∧
    (∀ (x y c r : Int), (Shield.init x y).inFootprint c r →
       ∀ n : Nat, (((Shield.init x y).hitIter c r n).hit c r).1 = decide (n < 3)) ∧
    (∀ (inp : FrameInput) (g : GameState) (si k : Nat),
       shieldCells (frameStep inp g).shields si k ≤ shieldCells g.shields si k) := by
  refine ⟨Shield.hit_not_inFootprint, Shield.hit_zero, ?_, Shield.hit_cell_le, ?_,
    Shield.hitIter_hit_true_iff, frameStep_shields_le⟩
  · intro s c r h hpos hlen
    exact Shield.hit_cell_self s c r h hpos hlen
  · intro s c r k h0 h3
    exact ⟨Shield.hit_cell_nonneg s c r k h0,
      le_trans (Shield.hit_cell_le s c r k) h3⟩

/-- Closed instances of `C2_shield_hit` on concrete shields: a miss outside
the footprint, pass-through on a zero cell, an absorbing hit on a fresh
shield, the exactly-three-hits behaviour at n = 3, and a frame-level cell
bound on the initial round state. -/
theorem C2_shield_hit_witness :
    Shield.hit (Shield.init 30 24) 0 0 = (false, Shield.init 30 24) ∧
    Shield.hit c2zeroShield 32 26 = (false, c2zeroShield) ∧
    ((Shield.init 30 24).hit 32 26).1 = true ∧
    (((Shield.init 30 24).hitIter 32 26 3).hit 32 26).1 = decide (3 < 3) ∧
    shieldCells (frameStep (noFireInput 1) initRound).shields 0 0 ≤
      shieldCells initRound.shields 0 0 :=
  ⟨C2_shield_hit.1 (Shield.init 30 24) 0 0 (by decide),
   C2_shield_hit.2.1 c2zeroShield 32 26 (by decide) (by decide),
   (C2_shield_hit.2.2.1 (Shield.init 30 24) 32 26 (by decide) (by decide) (by decide)).1,
   C2_shield_hit.2.2.2.2.2.1 30 24 32 26 (by decide) 3,
   C2_shield_hit.2.2.2.2.2.2 (noFireInput 1) initRound 0 0⟩

/-- Claim C3, amended: shield collision is resolved first for both
projectile kinds — the shield pass determines the post-frame shields, and an
absorbed projectile is removed; an enemy projectile absorbed by a shield
lying above the bottom row never triggers the player hit-test that frame;
but an absorbed PLAYER projectile still undergoes the enemy hit-test in the
same frame (see the counterexample, where it marks an enemy and scores). -/
theorem C3_amended :
    (∀ (inp : FrameInput) (g : GameState),
       g.bullet.visible = true →
       (hitShields g.shields (roundf (movedPlayerBullet inp g).x)
         (roundf (movedPlayerBullet inp g).y)).1 = true →
       (updatePlayerBullet inp g).bullet.visible = false ∧
       (updatePlayerBullet inp g).shields =
         (hitShields g.shields (roundf (movedPlayerBullet inp g).x)
           (roundf (movedPlayerBullet inp g).y)).2) ∧
    (∀ (st : ABState) (b : Bullet),
       b.visible = true →
       (∀ sh ∈ st.shields, sh.nY + Shield.Height ≤ nScreenHeight) →
       (hitShields st.shields (roundf b.x)
         (roundf (b.y + fAlienBulletSpeed * st.dt))).1 = true →
       (stepAlienBullet st b).1.bPlayerHit = st.bPlayerHit ∧
       (stepAlienBullet st b).1.nLives = st.nLives ∧
       (stepAlienBullet st b).1.bGameOver = st.bGameOver ∧
       (stepAlienBullet st b).2.visible = false) := by
  constructor
  · intro inp g hv habs
    unfold updatePlayerBullet
    rw [if_pos hv]
    dsimp only
    rw [if_pos habs]
    split_ifs <;> exact ⟨rfl, rfl⟩
  · intro st b hv hsh habs
    obtain ⟨sh, hmem, hhit⟩ := hitShields_true_exists _ _ _ habs
    have hfp := Shield.hit_true_inFootprint _ _ _ hhit
    have hrow : roundf (b.y + fAlienBulletSpeed * st.dt) < nScreenHeight := by
      obtain ⟨_, _, _, h4⟩ := hfp
      have hb := hsh sh hmem
      simp only [Shield.Height, nScreenHeight] at h4 hb ⊢
      omega
    unfold stepAlienBullet
    rw [if_pos hv]
    dsimp only
    rw [if_pos habs]
    rw [if_neg (fun hc => absurd hc.2.1 (ne_of_lt hrow)),
      if_neg (not_le.mpr hrow)]
    exact ⟨rfl, rfl, rfl, rfl⟩

/-- Closed instances of `C3_amended`: the player-projectile part on the c3
scenario, and the enemy-projectile part on a bullet entering the left shield
this frame. -/
theorem C3_amended_witness :
    ((updatePlayerBullet (noFireInput (1/40)) c3pre).bullet.visible = false ∧
     (updatePlayerBullet (noFireInput (1/40)) c3pre).shields =
       (hitShields c3pre.shields
         (roundf (movedPlayerBullet (noFireInput (1/40)) c3pre).x)
         (roundf (movedPlayerBullet (noFireInput (1/40)) c3pre).y)).2) ∧
    ((stepAlienBullet c3wst c3wb).1.bPlayerHit = c3wst.bPlayerHit ∧
     (stepAlienBullet c3wst c3wb).1.nLives = c3wst.nLives ∧
     (stepAlienBullet c3wst c3wb).1.bGameOver = c3wst.bGameOver ∧
     (stepAlienBullet c3wst c3wb).2.visible = false) :=
  ⟨C3_amended.1 (noFireInput (1/40)) c3pre (by decide) (by with_unfolding_all decide),
   C3_amended.2 c3wst c3wb (by decide) (by decide) (by with_unfolding_all decide)⟩

/-- Claim C7, amended: whenever the formation origin satisfies
`Y + height ≥ screenHeight`, the movement update signals round over that
frame (resetting the origin row to 2), for any state — independent of the
remaining enemies and lives; and the frame then ends in round-over provided
no enemy projectile confirms a player hit later in the same frame (here: no
enemy projectile in flight and none fired).  Without that proviso the later
assignment `bGameOver = nLives == 0` can overwrite the signal (see the
counterexample). -/
theorem C7_amended :
    (∀ (b : Bool) (g : GameState),
       g.nAlienBlockY + nAlienBlockHeight ≥ nScreenHeight →
       moveAliens b g = { g with bGameOver := true, nAlienBlockY := 2 }) ∧
    (∀ (inp : FrameInput) (g : GameState),
       g.nAlienBlockY + nAlienBlockHeight ≥ nScreenHeight →
       (∀ b ∈ g.alienBullets, b.visible = false) →
       (∀ i j : Nat, 2/10 ≤ inp.rand i j) →
       (frameStep inp g).bGameOver = true) := by
  refine ⟨moveAliens_bottom, ?_⟩
  intro inp g hy hb hr
  unfold frameStep
  dsimp only
  rw [renderFrame_bGameOver, animateExplodingPlayer_bGameOver,
    animateExplodingAlien_bGameOver]
  set A := escCheck inp.keyEsc { g with fAnimElapsed := g.fAnimElapsed + inp.dt } with hA
  set B := movePlayer inp A with hB
  set C := updatePlayerBullet inp B with hC
  have hCY : C.nAlienBlockY = g.nAlienBlockY := by
    rw [hC, updatePlayerBullet_nAlienBlockY, hB, movePlayer_nAlienBlockY, hA,
      escCheck_nAlienBlockY]
  have hCab : C.alienBullets = g.alienBullets := by
    rw [hC, updatePlayerBullet_alienBullets, hB, movePlayer_alienBullets, hA,
      escCheck_alienBullets]
  rw [moveAliens_bottom _ C (by rw [hCY]; exact hy)]
  set D : GameState := { C with bGameOver := true, nAlienBlockY := 2 } with hD
  set E := alienFiringStep inp D with hE
  have hEab : E.alienBullets = g.alienBullets := by
    rw [hE, alienFiringStep_alienBullets_noFire inp D hr]
    show C.alienBullets = g.alienBullets
    exact hCab
  rw [alienBulletsStep_bGameOver_invisible inp E (by rw [hEab]; exact hb)]
  rw [hE, alienFiringStep_bGameOver]

/-- Closed instance of `C7_amended`: the formation at row 26 with no enemy
projectile in flight, a quiet frame; the round is over after the frame. -/
theorem C7_amended_witness :
    moveAliens false c7wpre = { c7wpre with bGameOver := true, nAlienBlockY := 2 } ∧
    (frameStep (noFireInput (1/100)) c7wpre).bGameOver = true :=
  ⟨C7_amended.1 false c7wpre (by decide),
   C7_amended.2 (noFireInput (1/100)) c7wpre (by decide) (by decide)
     (fun i j => by show (2 : ℚ)/10 ≤ 1; with_unfolding_all decide)⟩

/-- Claim C8, confirmed: with every pool slot visible, `AlienFire` walks the
whole pool, finds no free slot, returns false and leaves the pool — and
hence the rest of the game state, which it never touches — unchanged; the
attempt is silently dropped. -/
theorem C8_pool_full_noop :
    ∀ (nABX nABY : Int) (i j : Nat) (bs : List Bullet),
      (∀ b ∈ bs, b.visible = true) →
      AlienFire nABX nABY i j bs = (false, bs) :=
  fun nABX nABY i j bs h => alienFire_full nABX nABY i j bs h

/-- Closed instance of `C8_pool_full_noop` on a concrete full 5-slot pool. -/
theorem C8_pool_full_noop_witness :
    AlienFire 2 2 0 0 c8fullPool = (false, c8fullPool) :=
  C8_pool_full_noop 2 2 0 0 c8fullPool (by decide)

end ConInv
